import Mathlib

/-!
Shallow embedding of `src/window_identifier.rs` (ashpd).

The file defines `WindowIdentifier` together with its constructors
(`new`, `default`), the serializer, the gtk3 `From<gtk3::Window>`
conversion, the gtk4 asynchronous `from_window` resolver (with an
explicit model of the one-shot completion channel and its
single-consumption guard), and the `Drop` implementation.

Rust `expect(..)` panics are modelled with `Except String`; the value
carried by `Except.error` is the panic message.  The fallible
`downcast::<X11Surface>()` / `downcast::<X11Window>()` casts are
modelled as an `Option Nat` field (`some xid` on success, `none` on
cast failure), matching how the source consumes them
(`.map(|w| w.get_xid())` followed by `Ok`/`Err` dispatch).  The
wayland `downcast::<WaylandToplevel>().unwrap()` casts are treated as
infallible, as the source does: a surface of a `GdkWaylandDisplay`
display is a wayland toplevel.
-/

/-- State of a gdk4 surface as observed by the code: the display it is
attached to (`get_display`, `none` when detached, otherwise the gtype
name of the display), the result of the fallible X11 downcast + xid
read, and, for the wayland path, the sequence of opaque handle values
the compositor passes to the `export_handle` callback over time
(empty when the callback never fires before the channel closes). -/
structure Surface where
  displayName : Option String
  x11Xid : Option Nat
  waylandTokens : List String
deriving Repr, DecidableEq

/-- State of a gtk4 root window: `get_surface` returns `none` when the
window is not mapped. -/
structure RootState where
  surface : Option Surface
deriving Repr, DecidableEq

/-- State of a gdk3 window: the gtype name of its display
(`get_display` is infallible in gtk3) and the result of the fallible
`downcast::<X11Window>().map(get_xid)`. -/
structure Gdk3Window where
  displayTypeName : String
  x11Xid : Option Nat
deriving Repr, DecidableEq

/-- State of a gtk3 toplevel window: `get_window` returns `none` when
the window is not mapped. -/
structure Gtk3WindowState where
  gdkWindow : Option Gdk3Window
deriving Repr, DecidableEq

/-- The token type.  The source declares two feature-gated variants
both named `Gtk` (one for gtk4 holding the root, one for gtk3 holding
only the handle); Lean needs distinct constructor names, so they are
`Gtk4` and `Gtk3` here.  `Other` is the caller-supplied variant. -/
inductive WindowIdentifier where
  | Gtk4 (root : RootState) (handle : String)
  | Gtk3 (handle : String)
  | Other (handle : String)
deriving Repr, DecidableEq

/-- Model of `impl Serialize for WindowIdentifier`: every variant
serializes as its handle string. -/
def WindowIdentifier.serialize : WindowIdentifier → String
  | .Gtk4 _ handle => handle
  | .Gtk3 handle => handle
  | .Other handle => handle

/-- Model of `WindowIdentifier::new`: wraps the caller's string in the
`Other` variant. -/
def WindowIdentifier.new (identifier : String) : WindowIdentifier :=
  .Other identifier

/-- Model of `impl Default for WindowIdentifier`: `Self::new("")`. -/
def WindowIdentifier.default : WindowIdentifier :=
  WindowIdentifier.new ""

/-- State of the one-shot completion channel together with the
`Arc<Mutex<Option<Sender>>>` guard: `sender` is the slot holding the
sender (consumed by `take()` on first delivery), `value` is the value
sitting in the channel, if any. -/
structure OneshotState where
  sender : Option Unit
  value : Option String
deriving Repr, DecidableEq

/-- Model of one invocation of the closure registered with
`export_handle`: format `"wayland:{handle}"`, then take the sender out
of the guarded slot and send through it; when the slot is already
empty the invocation does nothing. -/
def callbackInvoke (st : OneshotState) (handle : String) : OneshotState :=
  let wayland_handle := "wayland:" ++ handle
  match st.sender with
  | some _ => { sender := none, value := some wayland_handle }
  | none => st

/-- Run the registered callback once per token the compositor
delivers, starting from a fresh channel (sender present, no value). -/
def runCallbacks (tokens : List String) : OneshotState :=
  tokens.foldl callbackInvoke { sender := some (), value := none }

/-- Model of `receiver.await.ok()`: `some v` when a value was
delivered, `none` when the sender side was dropped without sending. -/
def receiverAwait (st : OneshotState) : Option String :=
  st.value

/-- Model of the gtk4 `WindowIdentifier::from_window`.  Panics from
`expect` are `Except.error`.  The wayland arm registers the callback
and awaits the one-shot channel; the x11 arm formats the xid; any
other display kind yields no handle.  `Some h` becomes
`Gtk { root, handle }` (note: for both backends); `None` becomes
`WindowIdentifier::default()`. -/
def WindowIdentifier.from_window (win : RootState) : Except String WindowIdentifier :=
  match win.surface with
  | none => Except.error "The window has to be mapped first"
  | some surface =>
    match surface.displayName with
    | none => Except.error "Surface has to be attached to a display"
    | some dname =>
      let handle : Option String :=
        if dname = "GdkWaylandDisplay" then
          receiverAwait (runCallbacks surface.waylandTokens)
        else if dname = "GdkX11Display" then
          surface.x11Xid.map (fun xid => "x11:" ++ toString xid)
        else
          none
      Except.ok (match handle with
        | some h => WindowIdentifier.Gtk4 win h
        | none => WindowIdentifier.default)

/-- Model of the gtk3 `impl From<gtk3::Window> for WindowIdentifier`:
`get_window` must succeed (`expect`, modelled as `Except.error`); an
`GdkX11Display` display with a successful downcast yields
`Some "x11:{xid}"`, everything else yields `None`; `Some h` becomes
`Gtk { handle }`, `None` becomes `WindowIdentifier::default()`. -/
def WindowIdentifier.fromGtk3Window (win : Gtk3WindowState) : Except String WindowIdentifier :=
  match win.gdkWindow with
  | none => Except.error "The window has to be mapped first."
  | some window =>
    let handle : Option String :=
      if window.displayTypeName = "GdkX11Display" then
        window.x11Xid.map (fun xid => "x11:" ++ toString xid)
      else
        none
    Except.ok (match handle with
      | some h => WindowIdentifier.Gtk3 h
      | none => WindowIdentifier.default)

/-- Outcome of running the destructor: either it returns normally,
having called `unexport_handle` the recorded number of times, or it
panics with the given message. -/
inductive DropResult where
  | ok (unexportCalls : Nat)
  | panicked (msg : String)
deriving Repr, DecidableEq

/-- Model of `impl Drop for WindowIdentifier`.  Only the gtk4 `Gtk`
variant does anything: it re-reads the root's surface and display at
drop time (`expect` panics when either is gone) and calls
`unexport_handle` exactly when the display is a `GdkWaylandDisplay`.
The second argument is the state of the token's root window at drop
time (ignored by the other variants). -/
def WindowIdentifier.dropRun : WindowIdentifier → RootState → DropResult
  | .Gtk4 _ _, st =>
    match st.surface with
    | none => .panicked "The window has to be mapped first"
    | some surf =>
      match surf.displayName with
      | none => .panicked "Surface has to be attached to a display"
      | some dname =>
        if dname = "GdkWaylandDisplay" then .ok 1 else .ok 0
  | .Gtk3 _, _ => .ok 0
  | .Other _, _ => .ok 0

/-- A token retains a persistent reference to the window exactly when
it is the gtk4 `Gtk { root, handle }` variant. -/
def retainsWindowRef : WindowIdentifier → Bool
  | .Gtk4 _ _ => true
  | .Gtk3 _ => false
  | .Other _ => false

/-! Helper lemmas about the one-shot channel model. -/

/-- Once the sender slot has been consumed, further callback
invocations leave the channel state unchanged. -/
theorem foldl_callbackInvoke_consumed (rest : List String) (v : Option String) :
    List.foldl callbackInvoke { sender := none, value := v } rest =
      { sender := none, value := v } := by
  induction rest with
  | nil => rfl
  | cons t ts ih =>
    rw [List.foldl_cons]
    exact ih

/-- Running the callback on a nonempty delivery sequence consumes the
sender on the first invocation and stores the first formatted value. -/
theorem runCallbacks_cons (t : String) (rest : List String) :
    runCallbacks (t :: rest) =
      { sender := none, value := some ("wayland:" ++ t) } := by
  unfold runCallbacks
  rw [List.foldl_cons]
  exact foldl_callbackInvoke_consumed rest _

/-- The awaited value is the formatted first delivery, when any. -/
theorem receiverAwait_runCallbacks (tokens : List String) :
    receiverAwait (runCallbacks tokens) =
      tokens.head?.map (fun t => "wayland:" ++ t) := by
  cases tokens with
  | nil => rfl
  | cons t rest => rw [runCallbacks_cons]; rfl

/-! Claim theorems. -/

/-- C8: `new` wraps the caller's string verbatim and serialization
returns it unchanged; `default()` is `new("")`, so both render as the
empty string. -/
theorem c8_new_serialize_verbatim :
    (∀ s : String, (WindowIdentifier.new s).serialize = s) ∧
    WindowIdentifier.default = WindowIdentifier.new "" ∧
    WindowIdentifier.default.serialize = "" ∧
    (WindowIdentifier.new "").serialize = "" :=
  ⟨fun _ => rfl, rfl, rfl, rfl⟩

/-- C10: every token built by `new` (and hence by `default`) is the
`Other` variant, and dropping it performs zero `unexport_handle`
calls, whatever the string contents and whatever the drop-time window
state; release is decided by the variant, never by the handle text. -/
theorem c10_new_tokens_never_release :
    (∀ s : String, WindowIdentifier.new s = WindowIdentifier.Other s) ∧
    (∀ (s : String) (st : RootState),
      (WindowIdentifier.new s).dropRun st = DropResult.ok 0) ∧
    (∀ st : RootState,
      (WindowIdentifier.new "wayland:abcd").dropRun st = DropResult.ok 0 ∧
      (WindowIdentifier.new "x11:42").dropRun st = DropResult.ok 0 ∧
      WindowIdentifier.default.dropRun st = DropResult.ok 0) :=
  ⟨fun _ => rfl, fun _ _ => rfl, fun _ => ⟨rfl, rfl, rfl⟩⟩

/-- C3: the destructor does not swallow a gone backend object: when
the root window's surface is already gone at drop time
(`get_surface()` yields nothing), `Drop` panics through `expect`
instead of skipping the release, so the failure escapes the
destructor. -/
theorem c3_drop_panics_when_surface_gone :
    (WindowIdentifier.Gtk4 ⟨some ⟨some "GdkWaylandDisplay", none, ["abcd"]⟩⟩
        "wayland:abcd").dropRun ⟨none⟩ =
      DropResult.panicked "The window has to be mapped first" := rfl

/-- C2: dropping a gtk4 `Gtk` token whose root still sits on a wayland
display performs exactly one `unexport_handle` call; dropping a gtk4
token whose root sits on any other display, or a gtk3 `Gtk` token, or
an `Other` token, performs zero calls. -/
theorem c2_release_exactly_once_iff_bound_wayland :
    (∀ (root : RootState) (h : String) (st : RootState) (s : Surface),
      st.surface = some s → s.displayName = some "GdkWaylandDisplay" →
      (WindowIdentifier.Gtk4 root h).dropRun st = DropResult.ok 1) ∧
    (∀ (root : RootState) (h : String) (st : RootState) (s : Surface) (d : String),
      st.surface = some s → s.displayName = some d → d ≠ "GdkWaylandDisplay" →
      (WindowIdentifier.Gtk4 root h).dropRun st = DropResult.ok 0) ∧
    (∀ (h : String) (st : RootState),
      (WindowIdentifier.Gtk3 h).dropRun st = DropResult.ok 0) ∧
    (∀ (h : String) (st : RootState),
      (WindowIdentifier.Other h).dropRun st = DropResult.ok 0) := by
  refine ⟨?_, ?_, fun _ _ => rfl, fun _ _ => rfl⟩
  · intro root h st s hs hd
    simp [WindowIdentifier.dropRun, hs, hd]
  · intro root h st s d hs hd hne
    simp [WindowIdentifier.dropRun, hs, hd, hne]

/-- C2 witness: concrete wayland-bound token releases once, concrete
x11-bound and `Other` tokens release zero times. -/
theorem c2_witness :
    (WindowIdentifier.Gtk4 ⟨none⟩ "wayland:abcd").dropRun
        ⟨some ⟨some "GdkWaylandDisplay", none, []⟩⟩ = DropResult.ok 1 ∧
    (WindowIdentifier.Gtk4 ⟨none⟩ "x11:42").dropRun
        ⟨some ⟨some "GdkX11Display", some 42, []⟩⟩ = DropResult.ok 0 ∧
    (WindowIdentifier.Other "wayland:abcd").dropRun ⟨none⟩ = DropResult.ok 0 :=
  ⟨c2_release_exactly_once_iff_bound_wayland.1 ⟨none⟩ "wayland:abcd" _ _ rfl rfl,
   c2_release_exactly_once_iff_bound_wayland.2.1 ⟨none⟩ "x11:42" _ _ "GdkX11Display"
     rfl rfl (by decide),
   c2_release_exactly_once_iff_bound_wayland.2.2.2 "wayland:abcd" ⟨none⟩⟩

/-- C7: the completion slot is consumed at most once: the awaited
result is always the formatted first delivery, the sender slot is gone
after the first invocation so later invocations are ignored, and a
wayland resolution seeing deliveries `"abcd"` then `"zzzz"` yields the
token rendering `"wayland:abcd"`. -/
theorem c7_first_delivery_wins :
    (∀ tokens : List String,
      receiverAwait (runCallbacks tokens) =
        tokens.head?.map (fun t => "wayland:" ++ t)) ∧
    (∀ (t : String) (rest : List String),
      (runCallbacks (t :: rest)).sender = none ∧
      receiverAwait (runCallbacks (t :: rest)) = some ("wayland:" ++ t)) ∧
    (∀ (win : RootState) (s : Surface),
      win.surface = some s → s.displayName = some "GdkWaylandDisplay" →
      s.waylandTokens = ["abcd", "zzzz"] →
      WindowIdentifier.from_window win =
        Except.ok (WindowIdentifier.Gtk4 win "wayland:abcd")) := by
  refine ⟨receiverAwait_runCallbacks, ?_, ?_⟩
  · intro t rest
    rw [runCallbacks_cons]
    exact ⟨rfl, rfl⟩
  · intro win s hs hd ht
    simp [WindowIdentifier.from_window, hs, hd, ht, runCallbacks_cons, receiverAwait]

/-- C7 witness: a concrete double-delivery resolution renders the
first token. -/
theorem c7_witness :
    WindowIdentifier.from_window ⟨some ⟨some "GdkWaylandDisplay", none, ["abcd", "zzzz"]⟩⟩ =
      Except.ok (WindowIdentifier.Gtk4
        ⟨some ⟨some "GdkWaylandDisplay", none, ["abcd", "zzzz"]⟩⟩ "wayland:abcd") :=
  c7_first_delivery_wins.2.2 _ _ rfl rfl rfl

/-- C1: every soft failure of resolution — unknown/unsupported display
backend, failed X11 downcast, or no callback delivery before the
channel closed — returns `Except.ok` of the default empty token, on
both the gtk4 `from_window` path and the gtk3 `From` conversion. -/
theorem c1_soft_failures_yield_default :
    (∀ (win : RootState) (s : Surface) (d : String),
      win.surface = some s → s.displayName = some d →
      ((d ≠ "GdkWaylandDisplay" ∧ d ≠ "GdkX11Display") ∨
        (d = "GdkX11Display" ∧ s.x11Xid = none) ∨
        (d = "GdkWaylandDisplay" ∧ s.waylandTokens = [])) →
      WindowIdentifier.from_window win = Except.ok WindowIdentifier.default) ∧
    (∀ (win : Gtk3WindowState) (w : Gdk3Window),
      win.gdkWindow = some w →
      (w.displayTypeName ≠ "GdkX11Display" ∨ w.x11Xid = none) →
      WindowIdentifier.fromGtk3Window win = Except.ok WindowIdentifier.default) := by
  constructor
  · rintro win s d hs hd (⟨h1, h2⟩ | ⟨h1, h2⟩ | ⟨h1, h2⟩) <;>
      simp [WindowIdentifier.from_window, hs, hd, h1, h2, runCallbacks, receiverAwait]
  · rintro win w hw (h1 | h1) <;>
      simp [WindowIdentifier.fromGtk3Window, hw, h1]

/-- C1 witness: an unknown backend, a failed X11 cast, a closed
wayland channel, and a gtk3 window on a non-X11 display all resolve to
the default token. -/
theorem c1_witness :
    WindowIdentifier.from_window ⟨some ⟨some "GdkQuartzDisplay", some 7, []⟩⟩ =
      Except.ok WindowIdentifier.default ∧
    WindowIdentifier.from_window ⟨some ⟨some "GdkX11Display", none, []⟩⟩ =
      Except.ok WindowIdentifier.default ∧
    WindowIdentifier.from_window ⟨some ⟨some "GdkWaylandDisplay", none, []⟩⟩ =
      Except.ok WindowIdentifier.default ∧
    WindowIdentifier.fromGtk3Window ⟨some ⟨"GdkBroadwayDisplay", none⟩⟩ =
      Except.ok WindowIdentifier.default :=
  ⟨c1_soft_failures_yield_default.1 _ _ "GdkQuartzDisplay" rfl rfl
     (Or.inl ⟨by decide, by decide⟩),
   c1_soft_failures_yield_default.1 _ _ "GdkX11Display" rfl rfl
     (Or.inr (Or.inl ⟨rfl, rfl⟩)),
   c1_soft_failures_yield_default.1 _ _ "GdkWaylandDisplay" rfl rfl
     (Or.inr (Or.inr ⟨rfl, rfl⟩)),
   c1_soft_failures_yield_default.2 _ _ rfl (Or.inl (by decide))⟩

/-- C4 counterexample: a successful X11 resolution through the gtk4
`from_window` also stores the root window in the returned `Gtk` token,
so an immediate-handle token does retain a persistent window
reference, contrary to the claim. -/
theorem c4_counterexample_x11_retains_root :
    WindowIdentifier.from_window ⟨some ⟨some "GdkX11Display", some 42, []⟩⟩ =
      Except.ok (WindowIdentifier.Gtk4
        ⟨some ⟨some "GdkX11Display", some 42, []⟩⟩ "x11:42") ∧
    retainsWindowRef (WindowIdentifier.Gtk4
        ⟨some ⟨some "GdkX11Display", some 42, []⟩⟩ "x11:42") = true :=
  ⟨by simp [WindowIdentifier.from_window]; rfl, rfl⟩

/-- C4 amended: a token produced by the gtk4 `from_window` retains the
window reference exactly when resolution succeeded with a handle
(either backend, X11 included); only the legacy gtk3 conversion
produces tokens without a persistent window reference. -/
theorem c4_amended_retention_iff_resolution_succeeded :
    (∀ (win : RootState) (t : WindowIdentifier),
      WindowIdentifier.from_window win = Except.ok t →
      (retainsWindowRef t = true ↔ t ≠ WindowIdentifier.default)) ∧
    (∀ (win : Gtk3WindowState) (t : WindowIdentifier),
      WindowIdentifier.fromGtk3Window win = Except.ok t →
      retainsWindowRef t = false) := by
  constructor
  · intro win t hok
    unfold WindowIdentifier.from_window at hok
    split at hok
    · exact absurd hok (by simp)
    · split at hok
      · exact absurd hok (by simp)
      · rw [Except.ok.injEq] at hok
        revert hok
        split
        · rintro rfl
          simp [retainsWindowRef, WindowIdentifier.default, WindowIdentifier.new]
        · rintro rfl
          simp [retainsWindowRef, WindowIdentifier.default, WindowIdentifier.new]
  · intro win t hok
    unfold WindowIdentifier.fromGtk3Window at hok
    split at hok
    · exact absurd hok (by simp)
    · rw [Except.ok.injEq] at hok
      revert hok
      split
      · rintro rfl
        rfl
      · rintro rfl
        rfl

/-- C4 amended witness: the wayland and x11 tokens both retain the
root and differ from the default token; a gtk3 token retains none. -/
theorem c4_amended_witness :
    (retainsWindowRef (WindowIdentifier.Gtk4
        ⟨some ⟨some "GdkX11Display", some 42, []⟩⟩ "x11:42") = true ↔
      WindowIdentifier.Gtk4 ⟨some ⟨some "GdkX11Display", some 42, []⟩⟩ "x11:42" ≠
        WindowIdentifier.default) ∧
    retainsWindowRef (WindowIdentifier.Gtk3 "x11:42") = false :=
  ⟨c4_amended_retention_iff_resolution_succeeded.1
      ⟨some ⟨some "GdkX11Display", some 42, []⟩⟩ _
      (by simp [WindowIdentifier.from_window]; rfl),
   c4_amended_retention_iff_resolution_succeeded.2
      ⟨some ⟨"GdkX11Display", some 42⟩⟩ _
      (by simp [WindowIdentifier.fromGtk3Window]; rfl)⟩

/-- C5: a wayland resolution whose callback delivers a token returns
the `Gtk` variant retaining the root window, with handle
`"wayland:" ++ token` for the first delivered token, and it serializes
to exactly that string. -/
theorem c5_wayland_success (win : RootState) (s : Surface) (t : String)
    (rest : List String) (hs : win.surface = some s)
    (hd : s.displayName = some "GdkWaylandDisplay")
    (ht : s.waylandTokens = t :: rest) :
    WindowIdentifier.from_window win =
      Except.ok (WindowIdentifier.Gtk4 win ("wayland:" ++ t)) ∧
    (WindowIdentifier.Gtk4 win ("wayland:" ++ t)).serialize = "wayland:" ++ t ∧
    retainsWindowRef (WindowIdentifier.Gtk4 win ("wayland:" ++ t)) = true := by
  refine ⟨?_, rfl, rfl⟩
  simp [WindowIdentifier.from_window, hs, hd, ht, runCallbacks_cons, receiverAwait]

/-- C5 witness: a concrete wayland window whose callback supplies
`"abcd"` resolves to a bound token rendering `"wayland:abcd"`. -/
theorem c5_witness :
    WindowIdentifier.from_window ⟨some ⟨some "GdkWaylandDisplay", none, ["abcd"]⟩⟩ =
      Except.ok (WindowIdentifier.Gtk4
        ⟨some ⟨some "GdkWaylandDisplay", none, ["abcd"]⟩⟩ "wayland:abcd") ∧
    (WindowIdentifier.Gtk4
        ⟨some ⟨some "GdkWaylandDisplay", none, ["abcd"]⟩⟩ "wayland:abcd").serialize =
      "wayland:abcd" ∧
    retainsWindowRef (WindowIdentifier.Gtk4
        ⟨some ⟨some "GdkWaylandDisplay", none, ["abcd"]⟩⟩ "wayland:abcd") = true :=
  c5_wayland_success _ _ "abcd" [] rfl rfl rfl

/-- C6: an x11 resolution whose downcast reports xid renders as
`"x11:" ++ toString xid`, the decimal representation of the
backend-reported id. -/
theorem c6_x11_success (win : RootState) (s : Surface) (xid : Nat)
    (hs : win.surface = some s) (hd : s.displayName = some "GdkX11Display")
    (hx : s.x11Xid = some xid) :
    WindowIdentifier.from_window win =
      Except.ok (WindowIdentifier.Gtk4 win ("x11:" ++ toString xid)) ∧
    (WindowIdentifier.Gtk4 win ("x11:" ++ toString xid)).serialize =
      "x11:" ++ toString xid := by
  refine ⟨?_, rfl⟩
  simp [WindowIdentifier.from_window, hs, hd, hx]

/-- C6 witness: a concrete x11 window with xid 12345 renders as
`"x11:12345"`. -/
theorem c6_witness :
    WindowIdentifier.from_window ⟨some ⟨some "GdkX11Display", some 12345, []⟩⟩ =
      Except.ok (WindowIdentifier.Gtk4
        ⟨some ⟨some "GdkX11Display", some 12345, []⟩⟩ "x11:12345") ∧
    (WindowIdentifier.Gtk4
        ⟨some ⟨some "GdkX11Display", some 12345, []⟩⟩ "x11:12345").serialize =
      "x11:12345" :=
  c6_x11_success _ _ 12345 rfl rfl rfl

/-- C9: for the same backend-reported xid, the legacy gtk3 conversion
and the gtk4 `from_window` produce tokens with identical rendered wire
strings, both `"x11:" ++ toString xid`. -/
theorem c9_legacy_x11_string_compatible (xid : Nat)
    (win3 : Gtk3WindowState) (w : Gdk3Window) (win4 : RootState) (s : Surface)
    (h3 : win3.gdkWindow = some w) (hw : w.displayTypeName = "GdkX11Display")
    (hx3 : w.x11Xid = some xid)
    (h4 : win4.surface = some s) (hd : s.displayName = some "GdkX11Display")
    (hx4 : s.x11Xid = some xid) :
    ∃ (t3 t4 : WindowIdentifier),
      WindowIdentifier.fromGtk3Window win3 = Except.ok t3 ∧
      WindowIdentifier.from_window win4 = Except.ok t4 ∧
      t3.serialize = t4.serialize ∧
      t3.serialize = "x11:" ++ toString xid := by
  refine ⟨WindowIdentifier.Gtk3 ("x11:" ++ toString xid),
          WindowIdentifier.Gtk4 win4 ("x11:" ++ toString xid), ?_, ?_, rfl, rfl⟩
  · simp [WindowIdentifier.fromGtk3Window, h3, hw, hx3]
  · simp [WindowIdentifier.from_window, h4, hd, hx4]

/-- C9 witness: both paths on xid 12345 produce tokens rendering
`"x11:12345"`. -/
theorem c9_witness :
    ∃ (t3 t4 : WindowIdentifier),
      WindowIdentifier.fromGtk3Window ⟨some ⟨"GdkX11Display", some 12345⟩⟩ =
        Except.ok t3 ∧
      WindowIdentifier.from_window ⟨some ⟨some "GdkX11Display", some 12345, []⟩⟩ =
        Except.ok t4 ∧
      t3.serialize = t4.serialize ∧
      t3.serialize = "x11:" ++ toString 12345 :=
  c9_legacy_x11_string_compatible 12345 _ _ _ _ rfl rfl rfl rfl rfl rfl
